import Mathlib

/-!
Verification of the `hello` demonstration web server (`cmd/hello/hello.go`).

The program is a single HTTP handler `root` that redirects plain-HTTP
requests to HTTPS, canonicalizes the request path, splits the caller
socket address, looks the caller up through a local `whois` API, and
renders an HTML template with the resulting identity record.

Strings are modelled as `List Char`.  The effectful parts of a request
(the outcome of the template-file read, of template parsing, of the
`whois` network call, and of template execution) are supplied as an
explicit environment record, so that `root` becomes a pure function of
the configuration, the environment and the request.
-/

/-- Strings of the Go program, modelled as lists of characters. -/
abbrev Str : Type := List Char

/-- Index of the first occurrence of character `c` in `s`
(Go `strings.Index` with a one-character pattern), `none` when absent. -/
def indexOf (s : Str) (c : Char) : Option Nat :=
  match s with
  | [] => none
  | a :: rest => if a = c then some 0 else (indexOf rest c).map (· + 1)

/-- Index of the last occurrence of character `c` in `s`
(the helper `last` used by Go `net.SplitHostPort`), `none` when absent. -/
def lastIndexOf (s : Str) (c : Char) : Option Nat :=
  match s with
  | [] => none
  | a :: rest =>
    match lastIndexOf rest c with
    | some i => some (i + 1)
    | none => if a = c then some 0 else none

/-- `tailcfg.UserProfile`, restricted to the fields `hello.go` reads. -/
structure UserProfile where
  DisplayName : Str
  LoginName : Str
  ProfilePicURL : Str
deriving DecidableEq, Repr

/-- `tailcfg.Hostinfo`, restricted to the fields `hello.go` reads. -/
structure Hostinfo where
  OS : Str
deriving DecidableEq, Repr

/-- `tailcfg.Node`, restricted to the fields `hello.go` reads. -/
structure Node where
  ComputedName : Str
  Hostinfo : Hostinfo
deriving DecidableEq, Repr

/-- `tailcfg.WhoIsResponse`, restricted to the fields `hello.go` reads. -/
structure WhoIsResponse where
  UserProfile : UserProfile
  Node : Node
deriving DecidableEq, Repr

/-- The process configuration: the values of the `-http` and `-https`
flags (`hello.go` lines 28-32). -/
structure Config where
  httpAddr : Str
  httpsAddr : Str
deriving DecidableEq, Repr

/-- `devMode` (`hello.go` line 87):
`return *httpsAddr == "" && *httpAddr != ""`. -/
def devMode (c : Config) : Bool :=
  c.httpsAddr.isEmpty && !c.httpAddr.isEmpty

/-- `tmplData` (`hello.go` lines 98-105): the record handed to the
template. -/
structure TmplData where
  DisplayName : Str
  LoginName : Str
  ProfilePicURL : Str
  MachineName : Str
  MachineOS : Str
  IP : Str
deriving DecidableEq, Repr

/-- `firstLabel` (`hello.go` lines 165-170): `s` up to the first period,
when there is one. -/
def firstLabel (s : Str) : Str :=
  match indexOf s '.' with
  | some i => s.take i
  | none => s

/-- Go `net.SplitHostPort` (standard library, as called by `root` at
`hello.go` line 120).  Splits `host:port`, handling the bracketed
`[host]:port` form; the bracket error messages are paraphrased, the
`missing port in address` and `too many colons in address` messages are
kept verbatim. -/
def splitHostPort (hostport : Str) : Except Str (Str × Str) :=
  match lastIndexOf hostport ':' with
  | none => .error "missing port in address".toList
  | some i =>
    if hostport.head? = some '[' then
      match indexOf hostport ']' with
      | none => .error "missing close bracket in address".toList
      | some e =>
        if e + 1 = hostport.length then
          .error "missing port in address".toList
        else if e + 1 = i then
          if indexOf (hostport.drop 1) '[' ≠ none then
            .error "missing close bracket in address".toList
          else if indexOf (hostport.drop (e + 1)) ']' ≠ none then
            .error "unexpected close bracket in address".toList
          else
            .ok ((hostport.take e).drop 1, hostport.drop (i + 1))
        else if hostport[e + 1]? = some ':' then
          .error "too many colons in address".toList
        else
          .error "missing port in address".toList
    else
      if indexOf (hostport.take i) ':' ≠ none then
        .error "too many colons in address".toList
      else if indexOf hostport '[' ≠ none then
        .error "missing close bracket in address".toList
      else if indexOf hostport ']' ≠ none then
        .error "unexpected close bracket in address".toList
      else
        .ok (hostport.take i, hostport.drop (i + 1))

deriving instance DecidableEq for Except

/-- Whether `sub` occurs at the start of `s`. -/
def startsWith (s sub : Str) : Bool :=
  match s, sub with
  | _, [] => true
  | [], _ :: _ => false
  | a :: s1, b :: t => a = b && startsWith s1 t

/-- Go `strings.Contains s sub`: whether `sub` occurs anywhere in `s`. -/
def containsSub (s sub : Str) : Bool :=
  match s with
  | [] => startsWith [] sub
  | _ :: rest => startsWith s sub || containsSub rest sub

/-- The request-scoped effect outcomes `root` consumes: the dev-mode
template file read (`slurpHTML`, lines 79-85), template parsing, the
production-mode compiled template (`tmpl`, line 96), the `whoIs` call
(lines 189-215) and template execution (`tmpl.Execute`, line 161).
A parsed template is represented by an abstract `Str` value. -/
structure Env where
  readFile : Except Str Str
  parse : Str → Except Str Str
  compiledTmpl : Str
  whois : Str → Except Str WhoIsResponse
  exec : Str → TmplData → Except Str Str

/-- Result of `getTmpl` (`hello.go` lines 89-94).  `fatal` records the
`log.Fatal` inside `slurpHTML` when the dev-mode file read fails: the
process exits, no value is returned to the handler. -/
inductive GetTmplResult where
  | fatal (msg : Str)
  | err (msg : Str)
  | ok (tmpl : Str)
deriving DecidableEq, Repr

/-- `getTmpl` (`hello.go` lines 89-94): in dev mode, read the template
file (fatal on read failure, per `slurpHTML`) and parse it fresh;
otherwise return the compiled template. -/
def getTmpl (c : Config) (e : Env) : GetTmplResult :=
  if devMode c then
    match e.readFile with
    | .error msg => .fatal msg
    | .ok text =>
      match e.parse text with
      | .error msg => .err msg
      | .ok t => .ok t
  else
    .ok e.compiledTmpl

/-- The observable outcome of one request through `root`.
`page rendered data` records that the handler set
`Content-Type: text/html; charset=utf-8` and called `tmpl.Execute` with
`data`; `rendered` is the execution result, which the code discards, and
the response status is 200 (Go writes the implicit 200 header on first
write or handler return).  `httpError` is `http.Error` (plain text),
`redirect` is `http.Redirect`, and `fatal` is a `log.Fatal` process
exit with no HTTP response. -/
inductive Outcome where
  | fatal (msg : Str)
  | redirect (location : Str) (status : Nat)
  | httpError (body : Str) (status : Nat)
  | page (rendered : Except Str Str) (data : TmplData)
deriving DecidableEq, Repr

/-- The HTTP status of an outcome; `none` for a process exit. -/
def Outcome.status : Outcome → Option Nat
  | .fatal _ => none
  | .redirect _ s => some s
  | .httpError _ s => some s
  | .page _ _ => some 200

/-- The fallback record substituted in dev mode when the `whois` lookup
fails (`hello.go` lines 137-144). -/
def fallbackData : TmplData :=
  { DisplayName := "Taily Scalerson".toList
    LoginName := "taily@scaler.son".toList
    ProfilePicURL := "https://placekitten.com/200/200".toList
    MachineName := "scaled".toList
    MachineOS := "Linux".toList
    IP := "100.1.2.3".toList }

/-- The record built from a successful `whois` response
(`hello.go` lines 151-158). -/
def mkTmplData (who : WhoIsResponse) (ip : Str) : TmplData :=
  { DisplayName := who.UserProfile.DisplayName
    LoginName := who.UserProfile.LoginName
    ProfilePicURL := who.UserProfile.ProfilePicURL
    MachineName := firstLabel who.Node.ComputedName
    MachineOS := who.Node.Hostinfo.OS
    IP := ip }

/-- The request fields `root` reads: whether the connection carried TLS
(`r.TLS != nil`), the `Host` header, the request URI, the remote socket
address, and the method (never inspected by the handler). -/
structure Request where
  tls : Bool
  host : Str
  requestURI : Str
  remoteAddr : Str
  method : Str
deriving DecidableEq, Repr

/-- `root` (`hello.go` lines 107-162), as a pure function of the
configuration, the effect environment and the request. -/
def root (c : Config) (e : Env) (r : Request) : Outcome :=
  if !r.tls && !c.httpsAddr.isEmpty then
    let host :=
      if containsSub r.host "100.101.102.103".toList then
        "hello.ipn.dev".toList
      else r.host
    .redirect ("https://".toList ++ host) 302
  else if r.requestURI ≠ "/".toList then
    .redirect "/".toList 302
  else
    match splitHostPort r.remoteAddr with
    | .error _ => .httpError "no remote addr".toList 500
    | .ok (ip, _) =>
      match getTmpl c e with
      | .fatal msg => .fatal msg
      | .err msg => .httpError ("template error: ".toList ++ msg) 500
      | .ok t =>
        match e.whois ip with
        | .error _ =>
          if devMode c then
            .page (e.exec t fallbackData) fallbackData
          else
            .httpError "Your Tailscale works, but we failed to look you up.".toList 500
        | .ok who =>
          .page (e.exec t (mkTmplData who ip)) (mkTmplData who ip)

/-- The truncation bound applied to the raw body in decode-error
messages (`hello.go` line 209: `max := 200`). -/
def maxErrBody : Nat := 200

/-- The truncation of the raw response body performed before it is
embedded in the decode-error message (`hello.go` lines 209-211). -/
def truncForError (slurp : Str) : Str :=
  if slurp.length > maxErrBody then slurp.take maxErrBody else slurp

/-- The decode-error message (`hello.go` line 212).  Go formats the
truncated body with the `%q` verb; the surrounding quotes are modelled,
the escaping of special characters inside is not. -/
def parseErrorMsg (slurp : Str) : Str :=
  "failed to parse JSON WhoIsResponse from \"".toList
    ++ truncForError slurp ++ "\"".toList

/-- The response-handling tail of `whoIs` (`hello.go` lines 203-215):
given the decoded status line, status code and body of the local API
response, and an abstract JSON decoder, produce the result `whoIs`
returns.  A non-200 status embeds the full body; a decode failure embeds
the truncated body. -/
def whoIsHandleResponse (decode : Str → Option WhoIsResponse)
    (statusCode : Nat) (statusText : Str) (slurp : Str) :
    Except Str WhoIsResponse :=
  if statusCode ≠ 200 then
    .error ("HTTP ".toList ++ statusText ++ ": ".toList ++ slurp)
  else
    match decode slurp with
    | some r => .ok r
    | none => .error (parseErrorMsg slurp)

/-- A character absent from a string has no first index. -/
theorem indexOf_eq_none_of_not_mem {s : Str} {c : Char} (h : c ∉ s) :
    indexOf s c = none := by
  induction s with
  | nil => rfl
  | cons a rest ih =>
    rw [List.mem_cons, not_or] at h
    have ha : a ≠ c := fun hh => h.1 hh.symm
    simp [indexOf, ha, ih h.2]

/-- A character absent from a string has no last index. -/
theorem lastIndexOf_eq_none_of_not_mem {s : Str} {c : Char} (h : c ∉ s) :
    lastIndexOf s c = none := by
  induction s with
  | nil => rfl
  | cons a rest ih =>
    rw [List.mem_cons, not_or] at h
    have ha : a ≠ c := fun hh => h.1 hh.symm
    simp [lastIndexOf, ih h.2, ha]

/-- When `c` does not occur in `port`, the last `c` of `host ++ c :: port`
sits exactly at index `host.length`. -/
theorem lastIndexOf_append_cons {port : Str} {c : Char} (host : Str)
    (h : c ∉ port) :
    lastIndexOf (host ++ c :: port) c = some host.length := by
  induction host with
  | nil => simp [lastIndexOf, lastIndexOf_eq_none_of_not_mem h]
  | cons a rest ih => simp [lastIndexOf, ih]

/-- Taking the length of the left part of an append returns it. -/
theorem take_length_append (l1 l2 : Str) : (l1 ++ l2).take l1.length = l1 := by
  induction l1 with
  | nil => rfl
  | cons a rest ih => simp [ih]

/-- Dropping past the separator of `l1 ++ a :: l2` leaves `l2`. -/
theorem drop_length_succ_append (l1 l2 : Str) (a : Char) :
    (l1 ++ a :: l2).drop (l1.length + 1) = l2 := by
  induction l1 with
  | nil => rfl
  | cons b rest ih =>
    simp only [List.cons_append, List.length_cons, List.drop_succ_cons]
    exact ih

/-- `firstLabel` truncates at the first period: it equals taking the
longest period-free leading run, and in particular returns the whole
string when it has no period. -/
theorem firstLabel_eq_takeWhile (s : Str) :
    firstLabel s = s.takeWhile (fun a => decide (a ≠ '.')) := by
  induction s with
  | nil => rfl
  | cons a rest ih =>
    by_cases ha : a = '.'
    · subst ha
      rw [List.takeWhile_cons_of_neg (by simp)]
      simp [firstLabel, indexOf]
    · rw [List.takeWhile_cons_of_pos (by simp [ha]), ← ih]
      rcases h : indexOf rest '.' with _ | i
      · have hr : firstLabel rest = rest := by simp [firstLabel, h]
        simp [firstLabel, indexOf, ha, h, hr]
      · have hr : firstLabel rest = rest.take i := by simp [firstLabel, h]
        simp [firstLabel, indexOf, ha, h, hr]

/-- A `template error: `-prefixed body is never the fixed
`no remote addr` body. -/
theorem template_error_ne_noremote (msg : Str) :
    ("template error: ".toList ++ msg) ≠ "no remote addr".toList := by
  intro h
  have h1 : ("template error: ".toList ++ msg).head? = some 't' := rfl
  rw [h] at h1
  exact absurd h1 (by decide)

/-- Dev mode forces the HTTPS address to be empty. -/
theorem devMode_httpsAddr_isEmpty {c : Config} (h : devMode c = true) :
    c.httpsAddr.isEmpty = true := by
  simp only [devMode, Bool.and_eq_true] at h
  exact h.1

/-- A plain `host:port` address whose host and port parts contain no
colon and no brackets. -/
def wellFormedHostPort (host port : Str) : Prop :=
  ':' ∉ host ∧ '[' ∉ host ∧ ']' ∉ host ∧
    ':' ∉ port ∧ '[' ∉ port ∧ ']' ∉ port

instance (host port : Str) : Decidable (wellFormedHostPort host port) := by
  unfold wellFormedHostPort
  infer_instance

/-- `splitHostPort` splits every well-formed `host:port` address into its
two parts without error. -/
theorem splitHostPort_wellFormed {host port : Str}
    (h : wellFormedHostPort host port) :
    splitHostPort (host ++ ':' :: port) = .ok (host, port) := by
  obtain ⟨h1, h2, h3, h4, h5, h6⟩ := h
  have hlast : lastIndexOf (host ++ ':' :: port) ':' = some host.length :=
    lastIndexOf_append_cons host h4
  have hhead : ¬ ((host ++ ':' :: port).head? = some '[') := by
    cases host with
    | nil =>
      intro hh
      exact absurd (Option.some.inj hh) (by decide)
    | cons a t =>
      rw [List.mem_cons, not_or] at h2
      intro hh
      exact h2.1 (Option.some.inj hh).symm
  have htake : (host ++ ':' :: port).take host.length = host :=
    take_length_append host (':' :: port)
  have hdrop : (host ++ ':' :: port).drop (host.length + 1) = port :=
    drop_length_succ_append host port ':'
  have hidxhost : indexOf host ':' = none := indexOf_eq_none_of_not_mem h1
  have hmeml : '[' ∉ host ++ ':' :: port := by
    simp only [List.mem_append, List.mem_cons, not_or]
    exact ⟨h2, by decide, h5⟩
  have hmemr : ']' ∉ host ++ ':' :: port := by
    simp only [List.mem_append, List.mem_cons, not_or]
    exact ⟨h3, by decide, h6⟩
  have hidxl : indexOf (host ++ ':' :: port) '[' = none :=
    indexOf_eq_none_of_not_mem hmeml
  have hidxr : indexOf (host ++ ':' :: port) ']' = none :=
    indexOf_eq_none_of_not_mem hmemr
  simp only [splitHostPort, hlast]
  rw [if_neg hhead, htake]
  rw [if_neg (fun hh => hh hidxhost)]
  rw [if_neg (fun hh => hh hidxl)]
  rw [if_neg (fun hh => hh hidxr)]
  rw [hdrop]

/-- C5 counterexample input: both listen addresses empty. -/
def configBothEmpty : Config := { httpAddr := [], httpsAddr := [] }

/-- C5: the claim says Dev mode holds if and only if the HTTPS address is
empty, independent of the HTTP address.  With both addresses empty the
HTTPS address is empty yet `devMode` is `false`, refuting the claim. -/
theorem devMode_not_iff_httpsEmpty :
    ¬ (devMode configBothEmpty = true ↔ configBothEmpty.httpsAddr = []) := by
  decide

/-- C5 (amended): the process is in Dev mode if and only if the HTTPS
address is empty and the HTTP address is non-empty. -/
theorem devMode_iff (c : Config) :
    devMode c = true ↔ (c.httpsAddr = [] ∧ c.httpAddr ≠ []) := by
  simp [devMode, List.isEmpty_iff]

/-- The production configuration used by concrete instances. -/
def cProd : Config := { httpAddr := ":80".toList, httpsAddr := ":443".toList }

/-- The dev-mode configuration used by concrete instances. -/
def cDev : Config := { httpAddr := ":80".toList, httpsAddr := [] }

/-- The concrete resolver response of the spec example. -/
def whoC1 : WhoIsResponse :=
  { UserProfile :=
      { DisplayName := "Foo Barberson".toList
        LoginName := "foo@bar.com".toList
        ProfilePicURL := "https://x/y.png".toList }
    Node :=
      { ComputedName := "imac5k.local".toList
        Hostinfo := { OS := "Linux".toList } } }

/-- The record the spec example expects the renderer to receive. -/
def recC1 : TmplData :=
  { DisplayName := "Foo Barberson".toList
    LoginName := "foo@bar.com".toList
    ProfilePicURL := "https://x/y.png".toList
    MachineName := "imac5k".toList
    MachineOS := "Linux".toList
    IP := "100.2.3.4".toList }

/-- An environment in which every effect succeeds. -/
def eOk : Env :=
  { readFile := .ok "T".toList
    parse := fun t => .ok t
    compiledTmpl := "T".toList
    whois := fun _ => .ok whoC1
    exec := fun _ _ => .ok "html".toList }

/-- An environment whose whois lookup fails. -/
def eFail : Env := { eOk with whois := fun _ => .error "down".toList }

/-- An environment whose template execution fails. -/
def eExecFail : Env := { eOk with exec := fun _ _ => .error "boom".toList }

/-- An environment whose template file read fails. -/
def eReadFail : Env := { eOk with readFile := .error "no file".toList }

/-- An environment whose template parse fails. -/
def eParseFail : Env := { eOk with parse := fun _ => .error "bad".toList }

/-- A TLS request for `/` from `100.2.3.4:55`. -/
def rTls : Request :=
  { tls := true, host := "imac5k".toList, requestURI := "/".toList,
    remoteAddr := "100.2.3.4:55".toList, method := "GET".toList }

/-- The same request over plain HTTP. -/
def rPlainDev : Request := { rTls with tls := false }

/-- A TLS request for a non-root path. -/
def rPath : Request := { rTls with requestURI := "/foo".toList }

/-- A plain-HTTP request whose host contains the well-known virtual IP. -/
def rPlainHost : Request :=
  { rTls with tls := false, host := "100.101.102.103:80".toList }

/-- A TLS request whose remote address has no colon-separated port. -/
def rNoColon : Request := { rTls with remoteAddr := "1234".toList }

/-- A TLS request with a well-formed `host:port` remote address. -/
def rWf : Request := { rTls with remoteAddr := "1.2.3.4:55".toList }

/-- C1: on a successful resolution with the given concrete profile, node
and caller IP, the record handed to the renderer is exactly the expected
one; in general the MachineName is the ComputedName truncated at its
first period (the whole name when it has none). -/
theorem root_resolved_record (c : Config) (e : Env) (r : Request)
    (t ip port : Str)
    (hred : (!r.tls && !c.httpsAddr.isEmpty) = false)
    (hpath : r.requestURI = "/".toList)
    (haddr : splitHostPort r.remoteAddr = .ok (ip, port))
    (hip : ip = "100.2.3.4".toList)
    (htmpl : getTmpl c e = .ok t)
    (hwho : e.whois ip = .ok whoC1) :
    root c e r = .page (e.exec t recC1) recC1 ∧
      ∀ (who : WhoIsResponse) (s : Str),
        (mkTmplData who s).MachineName
          = who.Node.ComputedName.takeWhile (fun a => decide (a ≠ '.')) := by
  have hdata : mkTmplData whoC1 "100.2.3.4".toList = recC1 := by decide
  constructor
  · have h1 : root c e r
        = .page (e.exec t (mkTmplData whoC1 ip)) (mkTmplData whoC1 ip) := by
      simp [root, hred, hpath, haddr, htmpl, hwho]
    rw [h1, hip, hdata]
  · intro who s
    simp [mkTmplData, firstLabel_eq_takeWhile]

/-- C1 witness at a concrete configuration, environment and request. -/
theorem root_resolved_record_witness :
    root cProd eOk rTls = .page (Except.ok "html".toList) recC1 :=
  (root_resolved_record cProd eOk rTls "T".toList "100.2.3.4".toList "55".toList
    (by decide) rfl (by decide) rfl rfl rfl).1

/-- C2: in Dev mode a whois failure is masked: the handler substitutes
the fixed fallback record and proceeds to render, with status 200. -/
theorem root_devmode_fallback (c : Config) (e : Env) (r : Request)
    (ip port t msg : Str)
    (hdev : devMode c = true)
    (hpath : r.requestURI = "/".toList)
    (haddr : splitHostPort r.remoteAddr = .ok (ip, port))
    (htmpl : getTmpl c e = .ok t)
    (hwho : e.whois ip = .error msg) :
    root c e r = .page (e.exec t fallbackData) fallbackData ∧
      (root c e r).status = some 200 ∧
      fallbackData =
        { DisplayName := "Taily Scalerson".toList
          LoginName := "taily@scaler.son".toList
          ProfilePicURL := "https://placekitten.com/200/200".toList
          MachineName := "scaled".toList
          MachineOS := "Linux".toList
          IP := "100.1.2.3".toList } := by
  have hred : (!r.tls && !c.httpsAddr.isEmpty) = false := by
    rw [devMode_httpsAddr_isEmpty hdev]
    simp
  have h1 : root c e r = .page (e.exec t fallbackData) fallbackData := by
    simp [root, hred, hpath, haddr, htmpl, hwho, hdev]
  exact ⟨h1, by rw [h1]; rfl, rfl⟩

/-- C2 witness: dev configuration, failing lookup, plain request. -/
theorem root_devmode_fallback_witness :
    root cDev eFail rPlainDev = .page (Except.ok "html".toList) fallbackData :=
  (root_devmode_fallback cDev eFail rPlainDev
    "100.2.3.4".toList "55".toList "T".toList "down".toList
    rfl rfl (by decide) rfl rfl).1

/-- C3: outside Dev mode a whois failure produces exactly the fixed 500
plain-text response, with no fallback substitution and no rendering. -/
theorem root_prod_whois_error_500 (c : Config) (e : Env) (r : Request)
    (ip port t msg : Str)
    (hdev : devMode c = false)
    (hred : (!r.tls && !c.httpsAddr.isEmpty) = false)
    (hpath : r.requestURI = "/".toList)
    (haddr : splitHostPort r.remoteAddr = .ok (ip, port))
    (htmpl : getTmpl c e = .ok t)
    (hwho : e.whois ip = .error msg) :
    root c e r =
        .httpError "Your Tailscale works, but we failed to look you up.".toList 500 ∧
      (root c e r).status = some 500 := by
  have h1 : root c e r =
      .httpError "Your Tailscale works, but we failed to look you up.".toList 500 := by
    simp [root, hred, hpath, haddr, htmpl, hwho, hdev]
  exact ⟨h1, by rw [h1]; rfl⟩

/-- C3 witness: production configuration, failing lookup, TLS request. -/
theorem root_prod_whois_error_500_witness :
    root cProd eFail rTls =
      .httpError "Your Tailscale works, but we failed to look you up.".toList 500 :=
  (root_prod_whois_error_500 cProd eFail rTls
    "100.2.3.4".toList "55".toList "T".toList "down".toList
    rfl rfl rfl (by decide) rfl rfl).1

/-- C6 counterexample: with the template available and the lookup
successful, template execution fails, yet the outcome is the 200 HTML
page path, not a 500: `root` discards the execution error. -/
theorem root_exec_failure_not_500 :
    root cProd eExecFail rTls
        = .page (Except.error "boom".toList) (mkTmplData whoC1 "100.2.3.4".toList) ∧
      (root cProd eExecFail rTls).status = some 200 ∧
      (root cProd eExecFail rTls).status ≠ some 500 := by
  refine ⟨by decide, by decide, by decide⟩

/-- C6 (amended): a template load/parse failure yields a 500 whose
plain-text body contains the error detail; a template execution failure
is discarded — the outcome remains the 200 HTML page path, carrying the
ignored execution error. -/
theorem root_render_error_handling :
    (∀ (c : Config) (e : Env) (r : Request) (ip port msg : Str),
      (!r.tls && !c.httpsAddr.isEmpty) = false →
      r.requestURI = "/".toList →
      splitHostPort r.remoteAddr = .ok (ip, port) →
      getTmpl c e = .err msg →
      root c e r = .httpError ("template error: ".toList ++ msg) 500) ∧
    (∀ (c : Config) (e : Env) (r : Request) (ip port t emsg : Str)
        (who : WhoIsResponse),
      (!r.tls && !c.httpsAddr.isEmpty) = false →
      r.requestURI = "/".toList →
      splitHostPort r.remoteAddr = .ok (ip, port) →
      getTmpl c e = .ok t →
      e.whois ip = .ok who →
      e.exec t (mkTmplData who ip) = .error emsg →
      root c e r = .page (.error emsg) (mkTmplData who ip) ∧
        (root c e r).status = some 200) := by
  constructor
  · intro c e r ip port msg hred hpath haddr htmpl
    simp [root, hred, hpath, haddr, htmpl]
  · intro c e r ip port t emsg who hred hpath haddr htmpl hwho hexec
    have h1 : root c e r = .page (.error emsg) (mkTmplData who ip) := by
      simp [root, hred, hpath, haddr, htmpl, hwho, hexec]
    exact ⟨h1, by rw [h1]; rfl⟩

/-- C6 witness: a dev-mode parse failure gives the 500 template error; a
production execution failure stays on the 200 page path. -/
theorem root_render_error_handling_witness :
    root cDev eParseFail rPlainDev
        = .httpError ("template error: ".toList ++ "bad".toList) 500 ∧
      root cProd eExecFail rTls
        = .page (Except.error "boom".toList) (mkTmplData whoC1 "100.2.3.4".toList) :=
  ⟨root_render_error_handling.1 cDev eParseFail rPlainDev
      "100.2.3.4".toList "55".toList "bad".toList (by decide) rfl (by decide) rfl,
   (root_render_error_handling.2 cProd eExecFail rTls
      "100.2.3.4".toList "55".toList "T".toList "boom".toList whoC1
      (by decide) rfl (by decide) rfl rfl rfl).1⟩

/-- C7: past the HTTPS-redirect check, any request URI other than `/`
yields a 302 redirect to `/`, for every method, independent of the
environment and of the remote address (so no address extraction,
resolution or rendering takes place). -/
theorem root_canonicalizes_path (c : Config) (e : Env) (r : Request)
    (hred : (!r.tls && !c.httpsAddr.isEmpty) = false)
    (hpath : r.requestURI ≠ "/".toList) :
    root c e r = .redirect "/".toList 302 ∧
      ∀ (e2 : Env) (addr : Str),
        root c e2 { r with remoteAddr := addr } = .redirect "/".toList 302 := by
  have hp : r.requestURI ≠ ['/'] := hpath
  constructor
  · simp [root, hred, hp]
  · intro e2 addr
    simp [root, hred, hp]

/-- C7 witness: a TLS request for `/foo`. -/
theorem root_canonicalizes_path_witness :
    root cProd eOk rPath = .redirect "/".toList 302 :=
  (root_canonicalizes_path cProd eOk rPath (by decide) (by decide)).1

/-- C8: a plain-HTTP request while HTTPS is configured redirects to
`https://` plus the request host, except that a host containing the
well-known virtual IP as a substring is replaced by the fixed public
hostname. -/
theorem root_https_redirect (c : Config) (e : Env) (r : Request)
    (htls : r.tls = false) (hcfg : c.httpsAddr ≠ []) :
    root c e r = .redirect ("https://".toList ++
      (if containsSub r.host "100.101.102.103".toList then "hello.ipn.dev".toList
       else r.host)) 302 := by
  have hne : c.httpsAddr.isEmpty = false := by
    cases hh : c.httpsAddr with
    | nil => exact absurd hh hcfg
    | cons a t => rfl
  have h1 : (!r.tls && !c.httpsAddr.isEmpty) = true := by
    rw [htls, hne]; rfl
  by_cases hc : containsSub r.host "100.101.102.103".toList <;>
    simp [root, h1, hc]

/-- C8 witness: a plain-HTTP request whose host contains the virtual
IP. -/
theorem root_https_redirect_witness :
    root cProd eOk rPlainHost
      = .redirect ("https://".toList ++ "hello.ipn.dev".toList) 302 := by
  have h := root_https_redirect cProd eOk rPlainHost rfl (by decide)
  rw [h]
  decide

/-- C9: at the address-extract step, a well-formed `host:port` remote
address never causes a redirect or the address error, and a remote
address containing no colon always produces the fixed 500
`no remote addr` response. -/
theorem root_address_extract :
    (∀ (c : Config) (e : Env) (r : Request) (host port : Str),
      (!r.tls && !c.httpsAddr.isEmpty) = false →
      r.requestURI = "/".toList →
      wellFormedHostPort host port →
      r.remoteAddr = host ++ ':' :: port →
      splitHostPort r.remoteAddr = .ok (host, port) ∧
        (∀ (loc : Str) (s : Nat), root c e r ≠ .redirect loc s) ∧
        root c e r ≠ .httpError "no remote addr".toList 500) ∧
    (∀ (c : Config) (e : Env) (r : Request),
      (!r.tls && !c.httpsAddr.isEmpty) = false →
      r.requestURI = "/".toList →
      ':' ∉ r.remoteAddr →
      root c e r = .httpError "no remote addr".toList 500) := by
  have hne2 : "Your Tailscale works, but we failed to look you up.".toList
      ≠ "no remote addr".toList := by decide
  constructor
  · intro c e r host port hred hpath hwf haddr
    have hsplit : splitHostPort r.remoteAddr = .ok (host, port) := by
      rw [haddr]; exact splitHostPort_wellFormed hwf
    refine ⟨hsplit, ?_, ?_⟩
    · intro loc s
      rcases hg : getTmpl c e with msg | msg | t
      · simp [root, hred, hpath, hsplit, hg]
      · simp [root, hred, hpath, hsplit, hg]
      · rcases hw : e.whois host with emsg | who
        · by_cases hdev : devMode c <;>
            simp [root, hred, hpath, hsplit, hg, hw, hdev]
        · simp [root, hred, hpath, hsplit, hg, hw]
    · rcases hg : getTmpl c e with msg | msg | t
      · simp [root, hred, hpath, hsplit, hg]
      · simp [root, hred, hpath, hsplit, hg, template_error_ne_noremote msg]
      · rcases hw : e.whois host with emsg | who
        · by_cases hdev : devMode c <;>
            simp [root, hred, hpath, hsplit, hg, hw, hdev, hne2]
        · simp [root, hred, hpath, hsplit, hg, hw]
  · intro c e r hred hpath hcol
    have hsplit : splitHostPort r.remoteAddr
        = .error "missing port in address".toList := by
      simp only [splitHostPort, lastIndexOf_eq_none_of_not_mem hcol]
    simp [root, hred, hpath, hsplit]

/-- C9 witness: a well-formed address splits; a colon-free address gets
the fixed 500. -/
theorem root_address_extract_witness :
    splitHostPort rWf.remoteAddr = Except.ok ("1.2.3.4".toList, "55".toList) ∧
      root cProd eOk rNoColon = .httpError "no remote addr".toList 500 :=
  ⟨(root_address_extract.1 cProd eOk rWf "1.2.3.4".toList "55".toList
      (by decide) rfl (by decide) (by decide)).1,
   root_address_extract.2 cProd eOk rNoColon (by decide) rfl (by decide)⟩

/-- C10: in Dev mode, a template file read failure during a request is
fatal to the process (a `log.Fatal` exit, never an HTTP 500), while a
parse failure of successfully read template text yields the 500
`template error` response. -/
theorem getTmpl_dev_read_fatal :
    (∀ (c : Config) (e : Env) (r : Request) (ip port msg : Str),
      (!r.tls && !c.httpsAddr.isEmpty) = false →
      r.requestURI = "/".toList →
      splitHostPort r.remoteAddr = .ok (ip, port) →
      devMode c = true →
      e.readFile = .error msg →
      root c e r = .fatal msg ∧ (root c e r).status = none) ∧
    (∀ (c : Config) (e : Env) (r : Request) (ip port text pmsg : Str),
      (!r.tls && !c.httpsAddr.isEmpty) = false →
      r.requestURI = "/".toList →
      splitHostPort r.remoteAddr = .ok (ip, port) →
      devMode c = true →
      e.readFile = .ok text →
      e.parse text = .error pmsg →
      root c e r = .httpError ("template error: ".toList ++ pmsg) 500) := by
  constructor
  · intro c e r ip port msg hred hpath haddr hdev hread
    have h1 : root c e r = .fatal msg := by
      simp [root, hred, hpath, haddr, getTmpl, hdev, hread]
    exact ⟨h1, by rw [h1]; rfl⟩
  · intro c e r ip port text pmsg hred hpath haddr hdev hread hparse
    simp [root, hred, hpath, haddr, getTmpl, hdev, hread, hparse]

/-- C10 witness: dev-mode read failure exits; dev-mode parse failure
responds 500. -/
theorem getTmpl_dev_read_fatal_witness :
    root cDev eReadFail rPlainDev = .fatal "no file".toList ∧
      root cDev eParseFail rPlainDev
        = .httpError ("template error: ".toList ++ "bad".toList) 500 :=
  ⟨(getTmpl_dev_read_fatal.1 cDev eReadFail rPlainDev
      "100.2.3.4".toList "55".toList "no file".toList
      (by decide) rfl (by decide) rfl rfl).1,
   getTmpl_dev_read_fatal.2 cDev eParseFail rPlainDev
      "100.2.3.4".toList "55".toList "T".toList "bad".toList
      (by decide) rfl (by decide) rfl rfl rfl⟩

/-- C4: on a decode failure the error message embeds the body truncated
to its first 200 characters: the embedded text is an initial segment of
the body of length at most 200, it is the whole body exactly when the
body has at most 200 characters, and it drops part of the body as soon
as the body exceeds 200 characters. -/
theorem whois_decode_error_truncated (decode : Str → Option WhoIsResponse)
    (statusText slurp : Str) (hdec : decode slurp = none) :
    whoIsHandleResponse decode 200 statusText slurp
        = .error (parseErrorMsg slurp) ∧
      truncForError slurp = slurp.take 200 ∧
      (truncForError slurp).length ≤ 200 ∧
      (slurp.length ≤ 200 → truncForError slurp = slurp) ∧
      (200 < slurp.length →
        truncForError slurp ≠ slurp ∧ (truncForError slurp).length = 200) := by
  have htake : truncForError slurp = slurp.take 200 := by
    by_cases h : slurp.length > maxErrBody
    · simp [truncForError, h, maxErrBody]
    · have hle : slurp.length ≤ 200 := by
        simpa [maxErrBody] using h
      simp only [truncForError, h, if_false]
      exact (List.take_of_length_le hle).symm
  have hlen : (truncForError slurp).length = min 200 slurp.length := by
    rw [htake, List.length_take]
  refine ⟨?_, htake, ?_, ?_, ?_⟩
  · simp [whoIsHandleResponse, hdec]
  · rw [hlen]; omega
  · intro hle
    simp [truncForError, maxErrBody, Nat.not_lt.mpr hle]
  · intro hgt
    constructor
    · intro heq
      have := congrArg List.length heq
      rw [hlen] at this
      omega
    · rw [hlen]; omega

/-- C4 witness at a one-character body and an always-failing decoder. -/
theorem whois_decode_error_truncated_witness :
    whoIsHandleResponse (fun _ => none) 200 "200 OK".toList "x".toList
      = Except.error (parseErrorMsg "x".toList) :=
  (whois_decode_error_truncated (fun _ => none) "200 OK".toList "x".toList rfl).1
